import Mathlib

/-!
Shallow embedding of the Task-Management-Backend controllers
(`src/controllers/authController.ts`, which also contains the task
controller) and verification of the specification's claims about them.

The relational datastore is embedded as explicit lists of rows (`List User`,
`List Task`); each Express handler becomes a pure function from the request
inputs and the current table contents to a result record holding the HTTP
status, the response body fields, the new table contents and the cookie
effect.  The external collaborators bcrypt (`hash`, `compare`) and
jsonwebtoken (`sign`, `verify`) are passed in as function parameters, exactly
as opaque to the handlers as the real libraries are.
-/

namespace TaskApi

/-- A row of the `users` table: id, unique email, bcrypt-hashed password and
the at-most-one stored refresh token (`refreshToken` column, nullable). -/
structure User where
  id : String
  email : String
  password : String
  refreshToken : Option String
deriving Repr, DecidableEq

/-- A row of the `tasks` table: id, owning user id, title, optional
description, status string (default "pending") and creation timestamp. -/
structure Task where
  id : String
  userId : String
  title : String
  description : Option String
  status : String
  createdAt : Nat
deriving Repr, DecidableEq

/-! ## Password validation (`PASSWORD_REGEX`, authController.ts line 16)

`/^(?=.*[a-z])(?=.*[A-Z])(?=.*\d)(?=.*[!@#$%^&*])[A-Za-z\d!@#$%^&*]{8,}$/`

The anchored body `[A-Za-z\d!@#$%^&*]{8,}` forces every character into the
fixed alphabet and the length to be at least 8; the four lookaheads each
require one character of the corresponding class somewhere in the string.
(The `.` of the lookaheads does not cross a newline, but a newline is outside
the body's character class, so the regex is equivalent to the conjunction
below.) -/

/-- The fixed special-character set `!@#$%^&*` of the password regex. -/
def specialChars : List Char := ['!', '@', '#', '$', '%', '^', '&', '*']

/-- Membership in the special set. -/
def isSpecial (c : Char) : Bool := specialChars.contains c

/-- Membership in the regex body's character class `[A-Za-z\d!@#$%^&*]`. -/
def isAllowedChar (c : Char) : Bool :=
  c.isUpper || c.isLower || c.isDigit || isSpecial c

/-- `PASSWORD_REGEX.test` (authController.ts line 16). -/
def passwordRegexTest (p : String) : Bool :=
  p.data.any Char.isLower &&
  p.data.any Char.isUpper &&
  p.data.any Char.isDigit &&
  p.data.any isSpecial &&
  p.data.all isAllowedChar &&
  decide (8 ≤ p.length)

/-- `PASSWORD_REQUIREMENTS` (authController.ts line 17). -/
def PASSWORD_REQUIREMENTS : String :=
  "Password must be at least 8 characters long and contain at least one uppercase letter, one lowercase letter, one number, and one special character (!@#$%^&*)."

/-- The five complexity rules exactly as the spec words them: "min 8 chars,
upper, lower, digit, one of a fixed special-character set".  This definition
follows the SPEC's wording (not the code) so that it can be compared with
`passwordRegexTest`, the code's actual validation. -/
def fiveComplexityRules (p : String) : Bool :=
  decide (8 ≤ p.length) &&
  p.data.any Char.isUpper &&
  p.data.any Char.isLower &&
  p.data.any Char.isDigit &&
  p.data.any isSpecial

/-! ## Lookup helpers (`prisma.user.findUnique`) -/

/-- `prisma.user.findUnique({ where: { email } })`. -/
def findUserByEmail (db : List User) (email : String) : Option User :=
  db.find? (fun u => u.email == email)

/-- `prisma.user.findUnique({ where: { id } })`. -/
def findUserById (db : List User) (uid : String) : Option User :=
  db.find? (fun u => u.id == uid)

/-! ## registerUser (authController.ts lines 39-85) -/

/-- Result of a register request: HTTP status, body message, the returned
safe `{id, email}` projection (present only on 201), and the users table
after the request. -/
structure RegisterResult where
  status : Nat
  message : String
  userOut : Option (String × String)
  db : List User
deriving Repr, DecidableEq

/-- `registerUser`.  `hash` stands for `bcrypt.hash password SALT_ROUNDS`
and `newId` for the id the datastore generates for the created row.  A
missing body field arrives as the empty string (the JS falsy check
`!email || !password`). -/
def registerUser (db : List User) (email password newId : String)
    (hash : String → String) : RegisterResult :=
  if email = "" ∨ password = "" then
    ⟨400, "Email and password are required.", none, db⟩
  else if passwordRegexTest password = false then
    ⟨400, PASSWORD_REQUIREMENTS, none, db⟩
  else
    match findUserByEmail db email with
    | some _ => ⟨409, "User with this email already exists.", none, db⟩
    | none =>
      ⟨201, "User registered successfully. Please log in.",
        some (newId, email), db ++ [⟨newId, email, hash password, none⟩]⟩

/-! ## loginUser (authController.ts lines 88-135) -/

/-- Result of a login request: HTTP status, body message, body access token
and `{id, email}` user projection (present only on 200), the users table
after the request, and the value set as the `refreshToken` cookie (`none`
when the handler sets no cookie). -/
structure LoginResult where
  status : Nat
  message : String
  accessToken : Option String
  userOut : Option (String × String)
  db : List User
  cookieSet : Option String
deriving Repr, DecidableEq

/-- The HTTP response part of a `LoginResult` (everything the client sees:
status, body fields, cookie header). -/
def loginResponse (r : LoginResult) :
    Nat × String × Option String × Option (String × String) × Option String :=
  (r.status, r.message, r.accessToken, r.userOut, r.cookieSet)

/-- `loginUser`.  `compare pw h` stands for `bcrypt.compare(pw, h)`;
`signAccess uid` / `signRefresh uid` stand for `jwt.sign({id: uid}, SECRET,
{expiresIn})` with the access / refresh secret (`generateTokens`). -/
def loginUser (db : List User) (email password : String)
    (compare : String → String → Bool)
    (signAccess signRefresh : String → String) : LoginResult :=
  if email = "" ∨ password = "" then
    ⟨400, "Email and password are required.", none, none, db, none⟩
  else
    match findUserByEmail db email with
    | none => ⟨401, "Invalid credentials.", none, none, db, none⟩
    | some u =>
      if compare password u.password = false then
        ⟨401, "Invalid credentials.", none, none, db, none⟩
      else
        ⟨200, "Login successful.", some (signAccess u.id), some (u.id, u.email),
          db.map (fun v =>
            if v.id == u.id then { v with refreshToken := some (signRefresh u.id) } else v),
          some (signRefresh u.id)⟩

/-! ## refreshToken (authController.ts lines 138-176) -/

/-- Result of a refresh request: HTTP status, body message and access token,
the users table after the request, and the value set as the refresh cookie
(`none`: the handler never touches the cookie). -/
structure RefreshResult where
  status : Nat
  message : String
  accessToken : Option String
  db : List User
  cookieSet : Option String
deriving Repr, DecidableEq

/-- `refreshToken` handler.  `cookie` is `req.cookies.refreshToken`;
`verifyRefresh t` stands for `jwt.verify(t, REFRESH_SECRET)` returning the
decoded user id, `none` on an invalid or expired token (the thrown-exception
path); `signAccess` signs the new access token. -/
def refreshTokenHandler (db : List User) (cookie : Option String)
    (verifyRefresh : String → Option String)
    (signAccess : String → String) : RefreshResult :=
  match cookie with
  | none => ⟨401, "Unauthorized. No refresh token provided.", none, db, none⟩
  | some tok =>
    match verifyRefresh tok with
    | none => ⟨403, "Forbidden. Refresh token invalid or expired.", none, db, none⟩
    | some uid =>
      match findUserById db uid with
      | none => ⟨403, "Forbidden. Invalid refresh token.", none, db, none⟩
      | some u =>
        if u.refreshToken ≠ some tok then
          ⟨403, "Forbidden. Invalid refresh token.", none, db, none⟩
        else
          ⟨200, "Access token refreshed successfully.", some (signAccess u.id), db, none⟩

/-! ## logoutUser (authController.ts lines 178-218) -/

/-- Result of a logout request: HTTP status, the users table after the
request, and whether the refresh cookie was cleared. -/
structure LogoutResult where
  status : Nat
  db : List User
  cookieCleared : Bool
deriving Repr, DecidableEq

/-- `logoutUser`.  The cookie is cleared first in every path.  When the
token decodes, `prisma.user.updateMany({where: {id, refreshToken}, data:
{refreshToken: null}})` clears the stored token only on the rows whose id
and stored token both match. -/
def logoutUser (db : List User) (cookie : Option String)
    (verifyRefresh : String → Option String) : LogoutResult :=
  match cookie with
  | none => ⟨204, db, true⟩
  | some tok =>
    match verifyRefresh tok with
    | none => ⟨204, db, true⟩
    | some uid =>
      ⟨204,
        db.map (fun u =>
          if u.id == uid && u.refreshToken == some tok
          then { u with refreshToken := none } else u),
        true⟩

/-! ## Task controller (taskController section, authController.ts lines 219-468) -/

/-- JS falsiness of an optional string body field: `undefined`/absent or the
empty string (`!title` in the handlers). -/
def strFalsy (o : Option String) : Bool := o.getD "" == ""

/-- The JS nullish choice `new ?? old` on an optional body field: the old
value is kept only when the new one is absent. -/
def nullish (new old : Option String) : Option String :=
  match new with
  | some d => some d
  | none => old

/-- The ownership-scoped lookup every non-create task operation starts with:
`prisma.task.findUnique/findFirst({ where: { id, userId } })`. -/
def findTaskScoped (db : List Task) (id uid : String) : Option Task :=
  db.find? (fun t => t.id == id && t.userId == uid)

/-- Result of a single-task operation: HTTP status, optional body message,
the task returned in the body (on 200), and the tasks table after the
request. -/
structure TaskResult where
  status : Nat
  message : Option String
  task : Option Task
  db : List Task
deriving Repr, DecidableEq

/-- The `404 {message: 'Task not found.'}` response, leaving the table
unchanged. -/
def notFoundTask (db : List Task) : TaskResult :=
  ⟨404, some "Task not found.", none, db⟩

/-- `getTaskById` (lines 325-348). -/
def getTaskById (db : List Task) (id uid : String) : TaskResult :=
  match findTaskScoped db id uid with
  | none => notFoundTask db
  | some t => ⟨200, none, some t, db⟩

/-- `updateTask` (lines 351-393).  Body fields arrive as `Option String`;
the at-least-one-field check is the JS falsy test, while the per-field
defaulting is the nullish `??` on `existingTask`.  The mutation
`prisma.task.update({ where: { id } })` sets the three fields on the row
with that id (the table's primary key). -/
def updateTask (db : List Task) (id uid : String)
    (title description status : Option String) : TaskResult :=
  if strFalsy title && strFalsy description && strFalsy status then
    ⟨400, some "At least one field (title, description, or status) is required for update.",
      none, db⟩
  else
    match findTaskScoped db id uid with
    | none => notFoundTask db
    | some t0 =>
      let newTitle := title.getD t0.title
      let newDescription := nullish description t0.description
      let newStatus := status.getD t0.status
      ⟨200, none,
        some { t0 with title := newTitle, description := newDescription, status := newStatus },
        db.map (fun t =>
          if t.id == id
          then { t with title := newTitle, description := newDescription, status := newStatus }
          else t)⟩

/-- `deleteTask` (lines 396-427).  `prisma.task.delete({ where: { id } })`
removes the row with that id. -/
def deleteTask (db : List Task) (id uid : String) : TaskResult :=
  match findTaskScoped db id uid with
  | none => notFoundTask db
  | some _ => ⟨204, none, none, db.filter (fun t => t.id != id)⟩

/-- The toggle expression (line 449): `task.status === 'pending' ?
'completed' : 'pending'`. -/
def toggleStatus (s : String) : String :=
  if s == "pending" then "completed" else "pending"

/-- `toggleTaskStatus` (lines 430-468). -/
def toggleTaskStatus (db : List Task) (id uid : String) : TaskResult :=
  match findTaskScoped db id uid with
  | none => notFoundTask db
  | some t0 =>
    let newStatus := toggleStatus t0.status
    ⟨200, none, some { t0 with status := newStatus },
      db.map (fun t => if t.id == id then { t with status := newStatus } else t)⟩

/-! ## getTasks (lines 231-294): filtering, search, pagination -/

/-- `needle` matches at the head of `hay`. -/
def matchAt : List Char → List Char → Bool
  | [], _ => true
  | _ :: _, [] => false
  | a :: as, b :: bs => a == b && matchAt as bs

/-- `needle` occurs as a contiguous run somewhere in `hay`. -/
def containsSub (needle : List Char) : List Char → Bool
  | [] => matchAt needle []
  | b :: bs => matchAt needle (b :: bs) || containsSub needle bs

/-- Case-insensitive substring containment: `{ contains: search, mode:
'insensitive' }` on the title. -/
def containsCI (hay needle : String) : Bool :=
  containsSub (needle.data.map Char.toLower) (hay.data.map Char.toLower)

/-- The dynamic `where` clause of `getTasks`: always scoped to the user's
id; the status filter applies only when the `status` query parameter is a
non-empty (truthy) string, the title search only when `search` is present
with a non-blank trim. -/
def taskMatches (uid : String) (statusQ searchQ : Option String) (t : Task) : Bool :=
  t.userId == uid &&
  (match statusQ with
   | some s => if s = "" then true else t.status == s
   | none => true) &&
  (match searchQ with
   | some s => if s.trim = "" then true else containsCI t.title s
   | none => true)

/-- `orderBy: { createdAt: 'desc' }` as a relation: `a` comes no later than
`b` when `a`'s creation timestamp is no smaller. -/
def createdDesc (a b : Task) : Prop := b.createdAt ≤ a.createdAt

instance : DecidableRel createdDesc := fun a b => Nat.decLe b.createdAt a.createdAt

instance : IsTotal Task createdDesc :=
  ⟨fun a b => Nat.le_total b.createdAt a.createdAt⟩

instance : IsTrans Task createdDesc :=
  ⟨fun _ _ _ hab hbc => Nat.le_trans hbc hab⟩

/-- The matching rows ordered newest-first. -/
def sortByCreatedDesc (l : List Task) : List Task :=
  List.insertionSort createdDesc l

/-- Result of a task-listing request: the page of tasks and the metadata
object. -/
structure ListTasksResult where
  status : Nat
  tasks : List Task
  totalTasks : Nat
  totalPages : Nat
  currentPage : Nat
  limit : Nat
deriving Repr, DecidableEq

/-- `getTasks`.  `page` and `limit` are the parsed query integers (defaults
1 and 10); `skip = (page-1)*limit`, `take = limit`, `totalPages =
Math.ceil(totalTasks / limit)` which for naturals with `limit > 0` is
`(totalTasks + limit - 1) / limit`. -/
def getTasks (db : List Task) (uid : String) (statusQ searchQ : Option String)
    (page limit : Nat) : ListTasksResult :=
  let matching := db.filter (taskMatches uid statusQ searchQ)
  let totalTasks := matching.length
  let items := ((sortByCreatedDesc matching).drop ((page - 1) * limit)).take limit
  ⟨200, items, totalTasks, (totalTasks + limit - 1) / limit, page, limit⟩

/-! ## Concrete table contents used to exercise the theorems -/

/-- 25 tasks of one user with distinct creation timestamps. -/
def db25 : List Task :=
  (List.range 25).map (fun i => ⟨toString i, "u1", "task", none, "pending", i⟩)

/-- Two tasks of two different users. -/
def twoUserTasks : List Task :=
  [⟨"t1", "u1", "alpha", none, "pending", 0⟩,
   ⟨"t2", "u2", "beta", none, "pending", 1⟩]

/-- One task whose status lies outside {pending, completed}, reachable
through `updateTask`'s unvalidated `status` body field. -/
def dbWeird : List Task := [⟨"t1", "u1", "x", none, "archived", 0⟩]

/-- Two users, each with a stored refresh token. -/
def demoUsers : List User :=
  [⟨"u1", "a@b.com", "hashed", some "rt1"⟩,
   ⟨"u2", "c@d.com", "hashed2", some "rt2"⟩]

/-- A refresh-token verifier recognising exactly the token "rt1" as user
"u1". -/
def demoVerify : String → Option String :=
  fun t => if t = "rt1" then some "u1" else none

/-! ## Shared lemmas -/

/-- The password regex is the conjunction of the spec's five complexity
rules with the restriction of every character to the regex body's
alphabet. -/
theorem passwordRegexTest_eq_rules_and_alphabet (p : String) :
    passwordRegexTest p = (fiveComplexityRules p && p.data.all isAllowedChar) := by
  unfold passwordRegexTest fiveComplexityRules
  cases p.data.any Char.isLower <;> cases p.data.any Char.isUpper <;>
    cases p.data.any Char.isDigit <;> cases p.data.any isSpecial <;>
    cases p.data.all isAllowedChar <;> cases decide (8 ≤ p.length) <;> rfl

/-- A scoped task lookup over a row-wise transformed table, when the
transformation changes neither ids nor owners. -/
theorem findTaskScoped_map (db : List Task) (id uid : String) (g : Task → Task)
    (hg : ∀ t, (g t).id = t.id ∧ (g t).userId = t.userId) :
    findTaskScoped (db.map g) id uid = (findTaskScoped db id uid).map g := by
  unfold findTaskScoped
  rw [List.find?_map]
  have hcomp : ((fun t : Task => t.id == id && t.userId == uid) ∘ g)
      = (fun t : Task => t.id == id && t.userId == uid) := by
    funext t
    simp [Function.comp, (hg t).1, (hg t).2]
  rw [hcomp]

/-- An empty scoped lookup is exactly the absence of a row with the given
id owned by the given user. -/
theorem findTaskScoped_eq_none (db : List Task) (id uid : String)
    (h : ∀ t ∈ db, ¬(t.id = id ∧ t.userId = uid)) :
    findTaskScoped db id uid = none := by
  unfold findTaskScoped
  rw [List.find?_eq_none]
  intro t ht
  simp only [Bool.and_eq_true, beq_iff_eq]
  exact fun hcon => h t ht hcon

/-- A successful scoped lookup returns a row of the table with the
requested id, owned by the requesting user. -/
theorem findTaskScoped_spec (db : List Task) (id uid : String) (t : Task)
    (h : findTaskScoped db id uid = some t) :
    t ∈ db ∧ t.id = id ∧ t.userId = uid := by
  refine ⟨List.mem_of_find?_eq_some h, ?_⟩
  have := List.find?_some h
  simpa using this

/-! ## Claim C2 -/

/-- C2 counterexample: the handler checks password complexity before the
duplicate-email lookup, so registering an already-taken email with a
password that fails the complexity rules yields 400, not Conflict 409. -/
theorem register_existing_email_weak_password_not_conflict :
    (findUserByEmail [⟨"u1", "a@b.com", "h", none⟩] "a@b.com").isSome = true
    ∧ (registerUser [⟨"u1", "a@b.com", "h", none⟩] "a@b.com" "weak" "u2" (fun s => s)).status
      = 400
    ∧ ¬(registerUser [⟨"u1", "a@b.com", "h", none⟩] "a@b.com" "weak" "u2" (fun s => s)).status
      = 409 := by
  decide

/-- C2 amended: a register request whose email already belongs to an
existing user yields Conflict 409 (and leaves the users table unchanged)
provided the request passes input validation, i.e. both fields are present
and the password satisfies the complexity regex. -/
theorem register_existing_email_conflict (db : List User)
    (email password newId : String) (hash : String → String) (u : User)
    (hem : email ≠ "") (hpw : password ≠ "")
    (hvalid : passwordRegexTest password = true)
    (hex : findUserByEmail db email = some u) :
    (registerUser db email password newId hash).status = 409
    ∧ (registerUser db email password newId hash).message
      = "User with this email already exists."
    ∧ (registerUser db email password newId hash).db = db := by
  simp [registerUser, hem, hpw, hvalid, hex]

/-- C2 witness: registering the taken email "a@b.com" with a valid password
yields 409. -/
theorem register_existing_email_conflict_witness :
    passwordRegexTest "Aa1!aaaa" = true
    ∧ (registerUser [⟨"u1", "a@b.com", "h", none⟩] "a@b.com" "Aa1!aaaa" "u2"
        (fun s => s)).status = 409 :=
  ⟨by decide,
   (register_existing_email_conflict [⟨"u1", "a@b.com", "h", none⟩] "a@b.com" "Aa1!aaaa"
      "u2" (fun s => s) ⟨"u1", "a@b.com", "h", none⟩
      (by decide) (by decide) (by decide) (by decide)).1⟩

/-! ## Claim C3 -/

/-- C3 counterexample: the password "Aa1!aaaa-" satisfies all five stated
complexity rules (length 9, upper, lower, digit, special) yet fails the
code's validation, because the hyphen lies outside the regex body's
alphabet; registration rejects it with the requirements message. -/
theorem password_five_rules_not_sufficient :
    fiveComplexityRules "Aa1!aaaa-" = true
    ∧ passwordRegexTest "Aa1!aaaa-" = false
    ∧ (registerUser [] "e@x.com" "Aa1!aaaa-" "u1" (fun s => s)).status = 400
    ∧ (registerUser [] "e@x.com" "Aa1!aaaa-" "u1" (fun s => s)).message
      = PASSWORD_REQUIREMENTS :=
  ⟨by decide, by decide, by decide, rfl⟩

/-- C3 amended: for register requests with both fields present, a password
failing any one of the five complexity rules is rejected with the
requirements message (400); a password satisfying all five rules AND drawn
entirely from the regex's alphabet (A-Z, a-z, 0-9, !@#$%^&*) passes the
complexity validation. -/
theorem password_complexity_validation (db : List User)
    (email password newId : String) (hash : String → String)
    (hem : email ≠ "") (hpw : password ≠ "") :
    (fiveComplexityRules password = false →
      (registerUser db email password newId hash).status = 400
      ∧ (registerUser db email password newId hash).message = PASSWORD_REQUIREMENTS)
    ∧ (fiveComplexityRules password = true → password.data.all isAllowedChar = true →
      passwordRegexTest password = true) := by
  constructor
  · intro hfive
    have htest : passwordRegexTest password = false := by
      rw [passwordRegexTest_eq_rules_and_alphabet, hfive]
      rfl
    simp [registerUser, hem, hpw, htest]
  · intro hfive hall
    rw [passwordRegexTest_eq_rules_and_alphabet, hfive, hall]
    rfl

/-- C3 witness: the five-rule-failing password "weak" is rejected with the
requirements message. -/
theorem password_complexity_validation_witness :
    fiveComplexityRules "weak" = false
    ∧ (registerUser [] "e@x.com" "weak" "u1" (fun s => s)).status = 400
    ∧ (registerUser [] "e@x.com" "weak" "u1" (fun s => s)).message
      = PASSWORD_REQUIREMENTS :=
  ⟨by decide,
   ((password_complexity_validation [] "e@x.com" "weak" "u1" (fun s => s)
      (by decide) (by decide)).1 (by decide)).1,
   ((password_complexity_validation [] "e@x.com" "weak" "u1" (fun s => s)
      (by decide) (by decide)).1 (by decide)).2⟩

/-! ## Claim C9 -/

/-- C9: any password containing a character outside the fixed alphabet
A-Z, a-z, 0-9, !@#$%^&* fails the regex and is rejected by registration
with the requirements message, regardless of the five complexity rules. -/
theorem register_rejects_disallowed_char (db : List User)
    (email password newId : String) (hash : String → String) (c : Char)
    (hem : email ≠ "") (hc : c ∈ password.data) (hbad : isAllowedChar c = false) :
    passwordRegexTest password = false
    ∧ (registerUser db email password newId hash).status = 400
    ∧ (registerUser db email password newId hash).message = PASSWORD_REQUIREMENTS := by
  have hpw : password ≠ "" := by
    intro h
    subst h
    simp at hc
  have hall : password.data.all isAllowedChar = false := by
    rw [List.all_eq_false]
    exact ⟨c, hc, by simp [hbad]⟩
  have htest : passwordRegexTest password = false := by
    rw [passwordRegexTest_eq_rules_and_alphabet, hall]
    simp
  exact ⟨htest, by simp [registerUser, hem, hpw, htest]⟩

/-- C9 witness: "Aa1! aaaa" satisfies all five complexity rules but
contains a space, which is outside the alphabet, so it is rejected with
the requirements message. -/
theorem register_rejects_disallowed_char_witness :
    fiveComplexityRules "Aa1! aaaa" = true
    ∧ (' ' ∈ "Aa1! aaaa".data ∧ isAllowedChar ' ' = false)
    ∧ passwordRegexTest "Aa1! aaaa" = false
    ∧ (registerUser [] "e@x.com" "Aa1! aaaa" "u1" (fun s => s)).status = 400 :=
  ⟨by decide, ⟨by decide, by decide⟩,
   (register_rejects_disallowed_char [] "e@x.com" "Aa1! aaaa" "u1" (fun s => s) ' '
      (by decide) (by decide) (by decide)).1,
   (register_rejects_disallowed_char [] "e@x.com" "Aa1! aaaa" "u1" (fun s => s) ' '
      (by decide) (by decide) (by decide)).2.1⟩

/-! ## Claim C5 -/

/-- C5: a login with a known email but a failing password comparison and a
login with an unknown email produce the identical response: the same 401
status, the same generic "Invalid credentials." body, no access token, no
user object and no cookie. -/
theorem login_failure_indistinguishable (db₁ db₂ : List User)
    (e₁ p₁ e₂ p₂ : String) (cmp₁ cmp₂ : String → String → Bool)
    (sa₁ sr₁ sa₂ sr₂ : String → String) (u : User)
    (he₁ : e₁ ≠ "") (hp₁ : p₁ ≠ "") (he₂ : e₂ ≠ "") (hp₂ : p₂ ≠ "")
    (hu : findUserByEmail db₁ e₁ = some u) (hcmp : cmp₁ p₁ u.password = false)
    (hno : findUserByEmail db₂ e₂ = none) :
    (loginUser db₁ e₁ p₁ cmp₁ sa₁ sr₁).status = 401
    ∧ (loginUser db₁ e₁ p₁ cmp₁ sa₁ sr₁).message = "Invalid credentials."
    ∧ (loginUser db₁ e₁ p₁ cmp₁ sa₁ sr₁).accessToken = none
    ∧ (loginUser db₁ e₁ p₁ cmp₁ sa₁ sr₁).cookieSet = none
    ∧ loginResponse (loginUser db₁ e₁ p₁ cmp₁ sa₁ sr₁)
      = loginResponse (loginUser db₂ e₂ p₂ cmp₂ sa₂ sr₂) := by
  simp [loginUser, loginResponse, he₁, hp₁, he₂, hp₂, hu, hno, hcmp]

/-- C5 witness: wrong password for the stored user "u1" and an unknown
email give byte-identical responses. -/
theorem login_failure_indistinguishable_witness :
    findUserByEmail demoUsers "a@b.com" = some ⟨"u1", "a@b.com", "hashed", some "rt1"⟩
    ∧ loginResponse (loginUser demoUsers "a@b.com" "wrong" (fun p h => p == h)
        (fun s => s) (fun s => s))
      = loginResponse (loginUser [] "x@y.com" "whatever" (fun p h => p == h)
        (fun s => s) (fun s => s)) :=
  ⟨by decide,
   (login_failure_indistinguishable demoUsers [] "a@b.com" "wrong" "x@y.com" "whatever"
      (fun p h => p == h) (fun p h => p == h) (fun s => s) (fun s => s) (fun s => s)
      (fun s => s) ⟨"u1", "a@b.com", "hashed", some "rt1"⟩
      (by decide) (by decide) (by decide) (by decide)
      (by decide) (by decide) (by decide)).2.2.2.2⟩

/-! ## Claim C4 -/

/-- C4: a successful refresh (cookie present, token verifies, decoded user
found, stored token matches) returns 200 with only a freshly signed access
token; the users table is returned unchanged (the stored refresh token is
not rotated) and no cookie is set. -/
theorem refresh_success_no_rotation (db : List User) (tok uid : String)
    (verifyRefresh : String → Option String) (signAccess : String → String) (u : User)
    (hv : verifyRefresh tok = some uid) (hu : findUserById db uid = some u)
    (hm : u.refreshToken = some tok) :
    refreshTokenHandler db (some tok) verifyRefresh signAccess
      = ⟨200, "Access token refreshed successfully.", some (signAccess u.id), db, none⟩ := by
  simp [refreshTokenHandler, hv, hu, hm]

/-- C4 witness: refreshing with the stored token "rt1" of user "u1" issues
a new access token and leaves the table and cookie alone. -/
theorem refresh_success_no_rotation_witness :
    demoVerify "rt1" = some "u1"
    ∧ refreshTokenHandler demoUsers (some "rt1") demoVerify (fun s => s ++ "-access")
      = ⟨200, "Access token refreshed successfully.", some "u1-access", demoUsers, none⟩ :=
  ⟨by decide,
   by
    have h := refresh_success_no_rotation demoUsers "rt1" "u1" demoVerify
      (fun s => s ++ "-access") ⟨"u1", "a@b.com", "hashed", some "rt1"⟩
      (by decide) (by decide) (by decide)
    exact h⟩

/-! ## Claim C6 -/

/-- C6: logout always responds 204 and always clears the cookie, whatever
the presented token; when the token is absent or does not decode, the users
table is untouched; when it decodes to a user id, the rows whose id and
stored refresh token both match the presented value have their stored token
cleared and every other row is kept unchanged. -/
theorem logout_always_succeeds (db : List User) (cookie : Option String)
    (verifyRefresh : String → Option String) :
    (logoutUser db cookie verifyRefresh).status = 204
    ∧ (logoutUser db cookie verifyRefresh).cookieCleared = true
    ∧ (cookie = none → (logoutUser db cookie verifyRefresh).db = db)
    ∧ (∀ tok, cookie = some tok → verifyRefresh tok = none →
        (logoutUser db cookie verifyRefresh).db = db)
    ∧ (∀ tok uid, cookie = some tok → verifyRefresh tok = some uid →
        ∀ u ∈ db,
          (u.id = uid ∧ u.refreshToken = some tok →
            { u with refreshToken := none } ∈ (logoutUser db cookie verifyRefresh).db)
          ∧ (¬(u.id = uid ∧ u.refreshToken = some tok) →
            u ∈ (logoutUser db cookie verifyRefresh).db)) := by
  refine ⟨?_, ?_, ?_, ?_, ?_⟩
  · cases cookie with
    | none => rfl
    | some tok => cases hv : verifyRefresh tok <;> simp [logoutUser, hv]
  · cases cookie with
    | none => rfl
    | some tok => cases hv : verifyRefresh tok <;> simp [logoutUser, hv]
  · intro h
    subst h
    rfl
  · intro tok hct hv
    subst hct
    simp [logoutUser, hv]
  · intro tok uid hct hv u hu
    subst hct
    simp only [logoutUser, hv]
    constructor
    · intro hmatch
      refine List.mem_map.mpr ⟨u, hu, ?_⟩
      simp [hmatch.1, hmatch.2]
    · intro hnomatch
      refine List.mem_map.mpr ⟨u, hu, ?_⟩
      have hcond : (u.id == uid && u.refreshToken == some tok) = false := by
        by_cases h1 : u.id = uid
        · by_cases h2 : u.refreshToken = some tok
          · exact absurd ⟨h1, h2⟩ hnomatch
          · simp [h1, h2]
        · simp [h1]
      simp [hcond]

/-- C6 witness: logging out with user "u1"'s stored token clears exactly
that row's stored token, keeps user "u2" intact, responds 204 and clears
the cookie. -/
theorem logout_always_succeeds_witness :
    (logoutUser demoUsers (some "rt1") demoVerify).status = 204
    ∧ (logoutUser demoUsers (some "rt1") demoVerify).cookieCleared = true
    ∧ (⟨"u1", "a@b.com", "hashed", none⟩ : User)
      ∈ (logoutUser demoUsers (some "rt1") demoVerify).db
    ∧ (⟨"u2", "c@d.com", "hashed2", some "rt2"⟩ : User)
      ∈ (logoutUser demoUsers (some "rt1") demoVerify).db := by
  have h := logout_always_succeeds demoUsers (some "rt1") demoVerify
  refine ⟨h.1, h.2.1, ?_, ?_⟩
  · exact (h.2.2.2.2 "rt1" "u1" rfl (by decide)
      ⟨"u1", "a@b.com", "hashed", some "rt1"⟩ (by decide)).1 ⟨rfl, rfl⟩
  · exact (h.2.2.2.2 "rt1" "u1" rfl (by decide)
      ⟨"u2", "c@d.com", "hashed2", some "rt2"⟩ (by decide)).2 (by decide)

/-! ## Claim C8 -/

/-- C8: on an owned task whose status is "pending" or "completed",
toggle-status swaps the two values, and toggling twice through the stored
table returns the task to its original status. -/
theorem toggle_status_round_trip (db : List Task) (id uid : String) (t0 : Task)
    (hfind : findTaskScoped db id uid = some t0)
    (hstat : t0.status = "pending" ∨ t0.status = "completed") :
    (t0.status = "pending" →
      (toggleTaskStatus db id uid).task.map Task.status = some "completed")
    ∧ (t0.status = "completed" →
      (toggleTaskStatus db id uid).task.map Task.status = some "pending")
    ∧ (toggleTaskStatus (toggleTaskStatus db id uid).db id uid).task.map Task.status
      = some t0.status := by
  have hid : t0.id = id := (findTaskScoped_spec db id uid t0 hfind).2.1
  have hfirst : (toggleTaskStatus db id uid).task.map Task.status
      = some (toggleStatus t0.status) := by
    simp [toggleTaskStatus, hfind]
  have hg : ∀ t : Task,
      ((fun t : Task =>
        if t.id == id then { t with status := toggleStatus t0.status } else t) t).id = t.id
      ∧ ((fun t : Task =>
        if t.id == id then { t with status := toggleStatus t0.status } else t) t).userId
        = t.userId := by
    intro t
    by_cases h : (t.id == id) = true <;> simp [h]
  have hfind2 : findTaskScoped (toggleTaskStatus db id uid).db id uid
      = some { t0 with status := toggleStatus t0.status } := by
    have hdb : (toggleTaskStatus db id uid).db
        = db.map (fun t : Task =>
            if t.id == id then { t with status := toggleStatus t0.status } else t) := by
      simp [toggleTaskStatus, hfind]
    rw [hdb, findTaskScoped_map db id uid _ hg, hfind]
    simp [hid]
  refine ⟨?_, ?_, ?_⟩
  · intro h
    rw [hfirst, h]
    rfl
  · intro h
    rw [hfirst, h]
    rfl
  · have hsecond :
        (toggleTaskStatus (toggleTaskStatus db id uid).db id uid).task.map Task.status
          = some (toggleStatus (toggleStatus t0.status)) := by
      generalize hY : (toggleTaskStatus db id uid).db = Y at hfind2 ⊢
      simp [toggleTaskStatus, hfind2]
    rw [hsecond]
    rcases hstat with h | h <;> rw [h] <;> rfl

/-- C8 witness: user "u1"'s pending task "t1" toggles to "completed" and
back to "pending". -/
theorem toggle_status_round_trip_witness :
    findTaskScoped twoUserTasks "t1" "u1"
      = some ⟨"t1", "u1", "alpha", none, "pending", 0⟩
    ∧ (toggleTaskStatus twoUserTasks "t1" "u1").task.map Task.status = some "completed"
    ∧ (toggleTaskStatus (toggleTaskStatus twoUserTasks "t1" "u1").db "t1" "u1").task.map
        Task.status = some "pending" := by
  have h := toggle_status_round_trip twoUserTasks "t1" "u1"
    ⟨"t1", "u1", "alpha", none, "pending", 0⟩ (by decide) (Or.inl rfl)
  exact ⟨by decide, h.1 rfl, h.2.2⟩

/-! ## Claim C10 -/

/-- C10: the toggle expression sends every status other than "pending" to
"pending"; every row with the toggled id in the table after a successful
toggle has status in {pending, completed}; and the double-toggle round
trip forces the original status to lie in that set. -/
theorem toggle_nonpending_to_pending :
    (∀ s, s ≠ "pending" → toggleStatus s = "pending")
    ∧ (∀ db id uid t0, findTaskScoped db id uid = some t0 →
        ∀ t, t ∈ (toggleTaskStatus db id uid).db → t.id = id →
          t.status = "pending" ∨ t.status = "completed")
    ∧ (∀ s, toggleStatus (toggleStatus s) = s → s = "pending" ∨ s = "completed") := by
  refine ⟨?_, ?_, ?_⟩
  · intro s hs
    have h : (s == "pending") = false := by simp [hs]
    simp [toggleStatus, h]
  · intro db id uid t0 hfind t ht hid
    have hdb : (toggleTaskStatus db id uid).db
        = db.map (fun x : Task =>
            if x.id == id then { x with status := toggleStatus t0.status } else x) := by
      simp [toggleTaskStatus, hfind]
    rw [hdb] at ht
    rcases List.mem_map.mp ht with ⟨x, hx, hgx⟩
    by_cases hxid : (x.id == id) = true
    · rw [if_pos hxid] at hgx
      have hts : t.status = toggleStatus t0.status := by rw [← hgx]
      rw [hts]
      unfold toggleStatus
      by_cases h : (t0.status == "pending") = true <;> simp [h]
    · rw [if_neg hxid] at hgx
      subst hgx
      exact absurd (by simp [hid]) hxid
  · intro s h
    by_cases hp : s = "pending"
    · exact Or.inl hp
    · right
      have hbeq : (s == "pending") = false := by simp [hp]
      have h1 : toggleStatus s = "pending" := by simp [toggleStatus, hbeq]
      rw [h1] at h
      have h2 : toggleStatus "pending" = "completed" := rfl
      rw [h2] at h
      exact h.symm

/-- C10 witness: the status "archived" (set through the unvalidated update
body) toggles to "pending"; the handler on such a task stores "pending";
and a round-tripping status must already be "pending" or "completed". -/
theorem toggle_nonpending_to_pending_witness :
    toggleStatus "archived" = "pending"
    ∧ (toggleTaskStatus dbWeird "t1" "u1").task.map Task.status = some "pending"
    ∧ ("completed" = "pending" ∨ "completed" = "completed") :=
  ⟨toggle_nonpending_to_pending.1 "archived" (by decide),
   by decide,
   toggle_nonpending_to_pending.2.2 "completed" (by decide)⟩

/-! ## Claim C1 -/

/-- C1: every task operation other than create is scoped to (task id,
authenticated user id).  When no row with that id is owned by the user —
whether the id is absent altogether or owned by someone else — get-by-id,
delete, toggle and (with a non-empty body) update all return the one 404
not-found response and leave the table unchanged; get-by-id only ever
returns a task owned by the requester; listing only ever returns the
requester's tasks; and, ids being the table's primary key (pairwise
distinct), delete, toggle and update never remove or modify another user's
row. -/
theorem task_ops_owner_scoped (db : List Task) (id uid : String) :
    ((∀ t ∈ db, ¬(t.id = id ∧ t.userId = uid)) →
      getTaskById db id uid = notFoundTask db
      ∧ deleteTask db id uid = notFoundTask db
      ∧ toggleTaskStatus db id uid = notFoundTask db
      ∧ ∀ title description status,
          (strFalsy title && strFalsy description && strFalsy status) = false →
          updateTask db id uid title description status = notFoundTask db)
    ∧ (∀ t, (getTaskById db id uid).task = some t → t ∈ db ∧ t.userId = uid)
    ∧ (∀ statusQ searchQ page limit t,
        t ∈ (getTasks db uid statusQ searchQ page limit).tasks → t.userId = uid)
    ∧ ((db.map Task.id).Nodup →
        ∀ t ∈ db, t.userId ≠ uid →
          t ∈ (deleteTask db id uid).db
          ∧ t ∈ (toggleTaskStatus db id uid).db
          ∧ ∀ title description status,
              t ∈ (updateTask db id uid title description status).db) := by
  refine ⟨?_, ?_, ?_, ?_⟩
  · intro hnone
    have hfind := findTaskScoped_eq_none db id uid hnone
    refine ⟨?_, ?_, ?_, ?_⟩
    · simp [getTaskById, hfind]
    · simp [deleteTask, hfind]
    · simp [toggleTaskStatus, hfind]
    · intro title description status hbody
      simp [updateTask, hbody, hfind]
  · intro t ht
    cases hf : findTaskScoped db id uid with
    | none => simp [getTaskById, hf, notFoundTask] at ht
    | some t0 =>
      have hspec := findTaskScoped_spec db id uid t0 hf
      have ht0 : t0 = t := by simpa [getTaskById, hf] using ht
      exact ht0 ▸ ⟨hspec.1, hspec.2.2⟩
  · intro statusQ searchQ page limit t ht
    have ht' : t ∈ ((sortByCreatedDesc (db.filter (taskMatches uid statusQ searchQ))).drop
        ((page - 1) * limit)).take limit := ht
    have h1 : t ∈ sortByCreatedDesc (db.filter (taskMatches uid statusQ searchQ)) :=
      List.mem_of_mem_drop (List.mem_of_mem_take ht')
    have h2 : t ∈ db.filter (taskMatches uid statusQ searchQ) :=
      (List.perm_insertionSort createdDesc _).mem_iff.mp h1
    have h3 := (List.mem_filter.mp h2).2
    simp only [taskMatches, Bool.and_eq_true, beq_iff_eq] at h3
    exact h3.1.1
  · intro hnodup t ht htuid
    cases hf : findTaskScoped db id uid with
    | none =>
      refine ⟨?_, ?_, ?_⟩
      · simpa [deleteTask, hf, notFoundTask] using ht
      · simpa [toggleTaskStatus, hf, notFoundTask] using ht
      · intro title description status
        by_cases hb : (strFalsy title && strFalsy description && strFalsy status) = true
        · simpa [updateTask, hb] using ht
        · have hb' := eq_false_of_ne_true hb
          simpa [updateTask, hb', hf, notFoundTask] using ht
    | some t0 =>
      obtain ⟨ht0, hid0, huid0⟩ := findTaskScoped_spec db id uid t0 hf
      have hne : t.id ≠ id := by
        intro he
        have heq : t = t0 := List.inj_on_of_nodup_map hnodup ht ht0 (by rw [he, hid0])
        exact htuid (heq ▸ huid0)
      refine ⟨?_, ?_, ?_⟩
      · have : (deleteTask db id uid).db = db.filter (fun x => x.id != id) := by
          simp [deleteTask, hf]
        rw [this, List.mem_filter]
        exact ⟨ht, by simp [hne]⟩
      · have : (toggleTaskStatus db id uid).db
            = db.map (fun x : Task =>
                if x.id == id then { x with status := toggleStatus t0.status } else x) := by
          simp [toggleTaskStatus, hf]
        rw [this]
        exact List.mem_map.mpr ⟨t, ht, by simp [hne]⟩
      · intro title description status
        by_cases hb : (strFalsy title && strFalsy description && strFalsy status) = true
        · simpa [updateTask, hb] using ht
        · have hb' := eq_false_of_ne_true hb
          have : (updateTask db id uid title description status).db
              = db.map (fun x : Task =>
                  if x.id == id
                  then { x with
                          title := title.getD t0.title,
                          description := nullish description t0.description,
                          status := status.getD t0.status }
                  else x) := by
            unfold updateTask
            rw [hb']
            simp [hf]
          rw [this]
          exact List.mem_map.mpr ⟨t, ht, by simp [hne]⟩

/-- C1 witness: for user "u1", both the id "t2" (owned by "u2") and the
absent id "missing" get the same 404 answer with the table unchanged, and
deleting "u1"'s own task leaves "u2"'s task in place. -/
theorem task_ops_owner_scoped_witness :
    getTaskById twoUserTasks "t2" "u1" = notFoundTask twoUserTasks
    ∧ getTaskById twoUserTasks "missing" "u1" = notFoundTask twoUserTasks
    ∧ (⟨"t2", "u2", "beta", none, "pending", 1⟩ : Task)
      ∈ (deleteTask twoUserTasks "t1" "u1").db := by
  have h1 := task_ops_owner_scoped twoUserTasks "t2" "u1"
  have h2 := task_ops_owner_scoped twoUserTasks "missing" "u1"
  have h3 := task_ops_owner_scoped twoUserTasks "t1" "u1"
  exact ⟨(h1.1 (by decide)).1, (h2.1 (by decide)).1,
    (h3.2.2.2 (by decide) ⟨"t2", "u2", "beta", none, "pending", 1⟩
      (by decide) (by decide)).1⟩

/-! ## Claim C7 -/

/-- C7: listing with page p and limit l > 0 returns exactly the slice that
skips (p-1)*l of the matching rows sorted newest-first and takes at most l
of them (so its length is min l (n - (p-1)*l) for n matching rows), the
returned page is sorted newest-first, and totalPages is the ceiling of
n / l (the value (n + l - 1) / l, pinned by n ≤ totalPages * l <
n + l). -/
theorem getTasks_pagination (db : List Task) (uid : String)
    (statusQ searchQ : Option String) (page limit : Nat) (hl : 0 < limit) :
    (getTasks db uid statusQ searchQ page limit).tasks
      = ((sortByCreatedDesc (db.filter (taskMatches uid statusQ searchQ))).drop
          ((page - 1) * limit)).take limit
    ∧ (getTasks db uid statusQ searchQ page limit).tasks.length
      = min limit ((db.filter (taskMatches uid statusQ searchQ)).length
          - (page - 1) * limit)
    ∧ List.Sorted createdDesc (getTasks db uid statusQ searchQ page limit).tasks
    ∧ (getTasks db uid statusQ searchQ page limit).totalPages
      = ((db.filter (taskMatches uid statusQ searchQ)).length + limit - 1) / limit
    ∧ (db.filter (taskMatches uid statusQ searchQ)).length
      ≤ (getTasks db uid statusQ searchQ page limit).totalPages * limit
    ∧ (getTasks db uid statusQ searchQ page limit).totalPages * limit
      < (db.filter (taskMatches uid statusQ searchQ)).length + limit := by
  refine ⟨rfl, ?_, ?_, rfl, ?_, ?_⟩
  · have hsl : (sortByCreatedDesc (db.filter (taskMatches uid statusQ searchQ))).length
        = (db.filter (taskMatches uid statusQ searchQ)).length :=
      (List.perm_insertionSort createdDesc _).length_eq
    show (((sortByCreatedDesc (db.filter (taskMatches uid statusQ searchQ))).drop
        ((page - 1) * limit)).take limit).length = _
    rw [List.length_take, List.length_drop, hsl]
  · exact List.Pairwise.sublist
      ((List.take_sublist _ _).trans (List.drop_sublist _ _))
      (List.sorted_insertionSort createdDesc _)
  · show (db.filter (taskMatches uid statusQ searchQ)).length
        ≤ ((db.filter (taskMatches uid statusQ searchQ)).length + limit - 1) / limit * limit
    have h2 := Nat.lt_div_mul_add
      (a := (db.filter (taskMatches uid statusQ searchQ)).length + limit - 1) hl
    generalize ((db.filter (taskMatches uid statusQ searchQ)).length + limit - 1) / limit
        * limit = A at h2 ⊢
    omega
  · show ((db.filter (taskMatches uid statusQ searchQ)).length + limit - 1) / limit * limit
        < (db.filter (taskMatches uid statusQ searchQ)).length + limit
    have h1 := Nat.div_mul_le_self
      ((db.filter (taskMatches uid statusQ searchQ)).length + limit - 1) limit
    generalize ((db.filter (taskMatches uid statusQ searchQ)).length + limit - 1) / limit
        * limit = A at h1 ⊢
    omega

/-- C7 witness: with 25 tasks of one user and limit 10, page 3 returns 5
tasks and totalPages is 3; the page is sorted newest-first. -/
theorem getTasks_pagination_witness :
    (getTasks db25 "u1" none none 3 10).tasks.length = 5
    ∧ (getTasks db25 "u1" none none 3 10).totalPages = 3
    ∧ List.Sorted createdDesc (getTasks db25 "u1" none none 3 10).tasks := by
  have h := getTasks_pagination db25 "u1" none none 3 10 (by decide)
  exact ⟨by decide, by decide, h.2.2.1⟩

end TaskApi
